import Mathlib

/-
Verification of the data-acquisition engine of the ML_driven_on-chain_metrics
repository (src/data_providers/*, src/pipeline.py).

Shallow embedding conventions:
  - Time is measured in integer minutes since an epoch; a calendar day `d`
    (as produced by `datetime.strptime(date, "%Y-%m-%d")`) is minute `d * 1440`.
  - The upstream exchange is a finite list of raw kline rows (`MarketRow`),
    in the order the exchange would return them (Binance returns klines in
    ascending open-time order, `startTime`/`endTime` inclusive, truncated to
    the first `limit` rows).
  - A network request that raises `requests.exceptions.RequestException` is
    modelled by a boolean failure flag per request; `get_historical_klines`
    catches that exception and returns an empty DataFrame (binance.py:317-319),
    which the embedding mirrors by returning `[]`.
  - Python constructs that raise are embedded in `Except PyErr` / `Option`.
  - `while` loops are embedded as fuel recursion; the backfill loop strictly
    increases `current_start` by at least one day per pass, so fuel `endDay`
    is always sufficient.
-/

/-- One raw kline row as stored by the upstream exchange (the fields Binance
returns that survive normalization). `openTime` is in minutes. -/
structure MarketRow where
  openTime : Nat
  open_ : Int
  high : Int
  low : Int
  close : Int
  volume : Int
  trades_count : Int
deriving DecidableEq, Repr

/-- One normalized output row of `BinanceProvider.get_historical_klines`
(the `final_cols` of binance.py:307-310). `datetime` is the candle open time
in minutes. -/
structure Candle where
  datetime : Nat
  open_ : Int
  high : Int
  low : Int
  close : Int
  volume : Int
  symbol : String
  interval : String
  market_type : String
  trades_count : Int
deriving DecidableEq, Repr

/-- Normalization of one raw row: rename columns, attach the metadata columns
`symbol`, `interval`, `market_type` (binance.py:286-310). -/
def toCandle (symbol interval market_type : String) (r : MarketRow) : Candle :=
  { datetime := r.openTime, open_ := r.open_, high := r.high, low := r.low,
    close := r.close, volume := r.volume, symbol := symbol,
    interval := interval, market_type := market_type,
    trades_count := r.trades_count }

/-- Insert one candle into a list that is sorted ascending by `datetime`. -/
def insertByTime (c : Candle) : List Candle → List Candle
  | [] => [c]
  | d :: ds => if c.datetime ≤ d.datetime then c :: d :: ds else d :: insertByTime c ds

/-- The `df.sort_values('datetime')` step of `get_historical_klines`
(binance.py:312), embedded as insertion sort on the open time. -/
def sortByTime : List Candle → List Candle
  | [] => []
  | c :: cs => insertByTime c (sortByTime cs)

/-- `BinanceProvider.get_historical_klines` (binance.py:223-322).
The exchange returns the first `min limit 1000` klines whose open time lies in
the inclusive window `[startTime, endTime]`; the rows are normalized and
sorted by `datetime`.  A request-level failure (`RequestException`) is caught
inside the function and yields an empty result (binance.py:317-319). -/
def get_historical_klines (market : List MarketRow) (requestFails : Bool)
    (symbol interval : String) (startTime endTime : Nat) (limit : Nat)
    (market_type : String) : List Candle :=
  if requestFails then []
  else
    sortByTime
      (((market.filter (fun r => startTime ≤ r.openTime && r.openTime ≤ endTime)).take
          (min limit 1000)).map (toCandle symbol interval market_type))

/-- The `interval_map` of `BinanceProvider._get_interval_minutes`
(binance.py:395-399). -/
def interval_map : List (String × Nat) :=
  [("1m", 1), ("3m", 3), ("5m", 5), ("15m", 15), ("30m", 30),
   ("1h", 60), ("2h", 120), ("4h", 240), ("6h", 360), ("8h", 480), ("12h", 720),
   ("1d", 1440), ("3d", 4320), ("1w", 10080), ("1M", 43800)]

/-- `BinanceProvider._get_interval_minutes` (binance.py:393-400): unknown
intervals fall back to the daily value 1440. -/
def _get_interval_minutes (interval : String) : Nat :=
  (interval_map.lookup interval).getD 1440

/-- The dedup key used by `drop_duplicates(subset=['datetime','symbol'])`
(binance.py:386): the (symbol, open_time) pair of a row. -/
def rowKey (c : Candle) : String × Nat :=
  (c.symbol, c.datetime)

/-- Pandas `drop_duplicates(subset=['datetime','symbol'])` with the default
`keep='first'`: walk the rows in order, dropping any row whose key was
already seen. -/
def drop_duplicates_aux (seen : List (String × Nat)) : List Candle → List Candle
  | [] => []
  | c :: cs =>
    if rowKey c ∈ seen then drop_duplicates_aux seen cs
    else c :: drop_duplicates_aux (rowKey c :: seen) cs

/-- `complete_df.drop_duplicates(subset=['datetime','symbol'])` (binance.py:386). -/
def drop_duplicates (l : List Candle) : List Candle :=
  drop_duplicates_aux [] l

/-- First row of a list whose dedup key is `k`. -/
def firstWithKey (k : String × Nat) : List Candle → Option Candle
  | [] => none
  | c :: cs => if rowKey c = k then some c else firstWithKey k cs

/-- The chunk loop of `BinanceProvider.get_long_term_data` (binance.py:355-380),
recording only the `[current_start, current_end]` day ranges of the requests
it issues.  Fuel recursion: `current_start` advances to
`min (current_start + maxDays) endDay + 1` each pass. -/
def get_long_term_chunks (maxDays endDay : Nat) : Nat → Nat → List (Nat × Nat)
  | 0, _ => []
  | fuel + 1, current_start =>
    if current_start < endDay then
      let current_end := min (current_start + maxDays) endDay
      (current_start, current_end) :: get_long_term_chunks maxDays endDay fuel (current_end + 1)
    else []

/-- The chunk loop of `BinanceProvider.get_long_term_data` (binance.py:355-380):
the concatenation of all chunk results, before dedup.  Each chunk request
covers days `[current_start, current_end]`, i.e. minutes
`[current_start * 1440, current_end * 1440]`, with the hard-coded
`limit=1000` (binance.py:363-370); the next chunk starts at
`current_end + timedelta(days=1)` (binance.py:377).  Appending an empty chunk
is identical to the source's `if not chunk_data.empty` guard. -/
def get_long_term_raw (market : List MarketRow) (fail : Nat → Nat → Bool)
    (symbol interval market_type : String) (maxDays endDay : Nat) :
    Nat → Nat → List Candle
  | 0, _ => []
  | fuel + 1, current_start =>
    if current_start < endDay then
      let current_end := min (current_start + maxDays) endDay
      get_historical_klines market (fail current_start current_end) symbol interval
          (current_start * 1440) (current_end * 1440) 1000 market_type
        ++ get_long_term_raw market fail symbol interval market_type maxDays endDay fuel
            (current_end + 1)
    else []

/-- All rows accumulated by `get_long_term_data` before the dedup step:
`max_days_per_request = (1000 * interval_minutes) // (24 * 60)`
(binance.py:352-353), loop started at `startDay` with fuel `endDay`. -/
def get_long_term_all_rows (market : List MarketRow) (fail : Nat → Nat → Bool)
    (symbol interval : String) (startDay endDay : Nat) (market_type : String) :
    List Candle :=
  get_long_term_raw market fail symbol interval market_type
    ((1000 * _get_interval_minutes interval) / (24 * 60)) endDay endDay startDay

/-- `BinanceProvider.get_long_term_data` (binance.py:326-391): concatenate the
chunks and drop duplicate (datetime, symbol) rows.  When no chunk returned
data the source returns an empty DataFrame, which coincides with deduping the
empty concatenation. -/
def get_long_term_data (market : List MarketRow) (fail : Nat → Nat → Bool)
    (symbol interval : String) (startDay endDay : Nat) (market_type : String) :
    List Candle :=
  drop_duplicates (get_long_term_all_rows market fail symbol interval startDay endDay market_type)

/-- The day ranges of the chunk requests `get_long_term_data` issues for a
given interval and `[startDay, endDay]`. -/
def get_long_term_requests (interval : String) (startDay endDay : Nat) :
    List (Nat × Nat) :=
  get_long_term_chunks ((1000 * _get_interval_minutes interval) / (24 * 60))
    endDay endDay startDay

/-- The provider state set up by `BaseDataProvider.__init__` (base.py:17-26):
`api_key`, `rate_limit` (requests per minute) and `last_request_time = 0`.
The constructor performs no validation of `rate_limit`; it accepts any value,
zero included. -/
structure ProviderState where
  api_key : Option String
  rate_limit : Nat
  last_request_time : ℚ
deriving DecidableEq

/-- `BaseDataProvider.__init__` (base.py:17-26).  There is no
`ConfigurationError` anywhere in the repository: every `rate_limit` is
accepted as given. -/
def BaseDataProvider_init (api_key : Option String) (rate_limit : Nat) :
    ProviderState :=
  { api_key := api_key, rate_limit := rate_limit, last_request_time := 0 }

/-- `BaseDataProvider._rate_limit_wait` (base.py:38-47).  The source always
evaluates `min_interval = 60 / self.rate_limit`; in Python that raises
`ZeroDivisionError` when `rate_limit == 0`, embedded here as `none`.
Otherwise the call sleeps `max 0 (min_interval - (now - last_request_time))`
seconds and records the new request time; the result pairs the sleep
duration with the updated state. -/
def _rate_limit_wait (st : ProviderState) (now : ℚ) : Option (ℚ × ProviderState) :=
  if st.rate_limit = 0 then none
  else
    let time_since_last : ℚ := now - st.last_request_time
    let min_interval : ℚ := 60 / (st.rate_limit : ℚ)
    let sleep_time : ℚ := if time_since_last < min_interval then min_interval - time_since_last else 0
    some (sleep_time, { st with last_request_time := now + sleep_time })

/-- Result of one `validate_connection()` call: either a boolean, or a raised
exception carrying its message. -/
abbrev ValidateResult := Except String Bool

/-- `MultiProviderManager.test_all_connections` (factory.py:67-76): for each
registered provider, record its `validate_connection()` result; a raised
exception is caught and recorded as `False`. -/
def test_all_connections (providers : List (String × ValidateResult)) :
    List (String × Bool) :=
  providers.map fun p =>
    (p.1, match p.2 with
          | .ok b => b
          | .error _ => false)

/-- Abstract query-result payload (the DataFrame rows of a Dune query). -/
abbrev Df := List Int

/-- Python dict assignment `d[k] = v` on an association list: replace the
existing binding in place, or append a new one. -/
def dictSet {α : Type} : List (String × α) → String → α → List (String × α)
  | [], k, v => [(k, v)]
  | (k', v') :: rest, k, v =>
    if k' = k then (k, v) :: rest else (k', v') :: dictSet rest k v

/-- The cache state of `DuneProvider` (dune.py:29-30): `query_cache` maps a
string key to an `(inserted_at, value)` pair; `cache_duration` is the TTL in
seconds. -/
structure DuneCacheState where
  query_cache : List (String × (Nat × Df))
  cache_duration : Nat
deriving DecidableEq

/-- The cache fields as initialized by `DuneProvider.__init__` (dune.py:29-30):
empty cache, one-hour TTL. -/
def DuneProvider_init_cache : DuneCacheState :=
  { query_cache := [], cache_duration := 3600 }

/-- The cache key `f"query_{query_id}"` of dune.py:53. -/
def cache_key_of (query_id : Nat) : String :=
  "query_" ++ toString query_id

/-- `DuneProvider.get_query_result` (dune.py:45-74) on the success path.
`fetch_latest_result` is the upstream call
`self.client.get_latest_result_dataframe`; `now` is `time.time()` in seconds.
Returns the DataFrame, the new cache state, and whether a fresh upstream
fetch happened.  A cache hit requires `use_cache`, a present entry, and
`now - cached_time < cache_duration`; any other path fetches fresh and
replaces the cache entry wholesale with `(now, df)`. -/
def get_query_result (fetch_latest_result : Nat → Df) (st : DuneCacheState)
    (now : Nat) (query_id : Nat) (use_cache : Bool) : Df × DuneCacheState × Bool :=
  let ck := cache_key_of query_id
  let hit : Option Df :=
    match (if use_cache then st.query_cache.lookup ck else none) with
    | some (cached_time, cached_data) =>
      if now - cached_time < st.cache_duration then some cached_data else none
    | none => none
  match hit with
  | some cached_data => (cached_data, st, false)
  | none =>
    let df := fetch_latest_result query_id
    (df, { st with query_cache := dictSet st.query_cache ck (now, df) }, true)

/-- A Python runtime error relevant to these modules: an unresolvable name or
a missing attribute. -/
inductive PyErr where
  | nameError (n : String)
  | attributeError (n : String)
deriving DecidableEq, Repr

/-- The module-global names bound in `binance.py` (its imports at lines 6-12
and the class defined in it). -/
def binance_module_globals : List String :=
  ["requests", "pd", "time", "Dict", "Optional", "List", "Union",
   "datetime", "timedelta", "logging", "BaseDataProvider", "BinanceProvider"]

/-- A representative set of Python builtin names (none of the repository code
relies on a builtin called `interval`, `DataProviderManager` or `os`). -/
def python_builtins : List String :=
  ["print", "len", "min", "max", "abs", "sum", "int", "float", "str", "bool",
   "list", "dict", "set", "tuple", "sorted", "range", "enumerate", "zip",
   "isinstance", "super", "getattr", "setattr", "Exception", "ValueError",
   "TypeError", "AttributeError", "NameError", "KeyboardInterrupt"]

/-- Python name resolution inside a function body of `binance.py`: local
names, then the module globals, then builtins. -/
def binance_name_resolves (local_names : List String) (n : String) : Bool :=
  (local_names ++ binance_module_globals ++ python_builtins).contains n

/-- The keyword arguments `BinanceProvider.get_market_data` reads
(binance.py:114-117); note it never extracts an `interval` argument. -/
structure MarketDataKwargs where
  start_date : Option String
  end_date : Option String
  market_type : Option String
  limit : Option Nat
deriving DecidableEq, Repr

/-- Python truthiness of an optional string (`None` and `""` are falsy). -/
def pyTruthyStr : Option String → Bool
  | none => false
  | some s => !(s == "")

/-- `BinanceProvider.get_market_data` (binance.py:108-135).  After binding the
locals `symbol`, `kwargs`, `start_date`, `end_date`, `market_type`, `limit`,
both branches evaluate the expression `interval` (binance.py:123 and 132),
which is bound neither locally, nor in the module, nor as a builtin.  The
`Except.ok` branches are unreachable because `interval` never resolves. -/
def get_market_data (symbol : String) (kwargs : MarketDataKwargs) :
    Except PyErr (List Candle) :=
  let start_date := kwargs.start_date
  let end_date := kwargs.end_date
  let market_type := (kwargs.market_type).getD "spot"
  let limit := (kwargs.limit).getD 1000
  let local_names := ["self", "symbol", "kwargs", "start_date", "end_date",
                      "market_type", "limit"]
  if pyTruthyStr start_date then
    if binance_name_resolves local_names "interval" then
      Except.ok []
    else Except.error (.nameError "interval")
  else
    if binance_name_resolves local_names "interval" then
      Except.ok []
    else Except.error (.nameError "interval")

/-- A value bound in the `data_providers/__init__.py` module namespace: either
one of the two `setup_providers` functions, or any other object. -/
inductive PyAttr where
  | factory_setup_providers
  | init_setup_providers
  | other
deriving DecidableEq, Repr

/-- The namespace of `src/data_providers/__init__.py`, built in execution
order: the four imports of lines 6-9 (the last of which binds the factory's
`setup_providers`), the `__all__` assignment, and finally the module-level
`def setup_providers` of line 21, which rebinds the name. -/
def data_providers_init_namespace : List (String × PyAttr) :=
  dictSet
    (dictSet
      (dictSet
        (dictSet
          (dictSet
            (dictSet
              (dictSet
                (dictSet [] "BaseDataProvider" .other)
                "DuneProvider" .other)
              "HyperliquidProvider" .other)
            "DataProviderFactory" .other)
          "MultiProviderManager" .other)
        "setup_providers" .factory_setup_providers)
      "__all__" .other)
    "setup_providers" .init_setup_providers

/-- The names visible as module globals inside a function defined in
`data_providers/__init__.py`. -/
def data_providers_init_module_names : List String :=
  data_providers_init_namespace.map Prod.fst

/-- The `setup_providers` defined at `data_providers/__init__.py:21-34` (the
binding every importer of the package sees).  Its first statement,
`manager = DataProviderManager()` (line 23), looks up the name
`DataProviderManager`, which is bound neither in the module nor as a builtin;
the `Except.ok` branch is unreachable. -/
def setup_providers_shadowed : Except PyErr (List (String × ValidateResult)) :=
  if (data_providers_init_module_names ++ python_builtins).contains "DataProviderManager"
  then Except.ok []
  else Except.error (.nameError "DataProviderManager")

/-- The state `DataPipeline.__init__` would build (pipeline.py:18-28):
directory name, the provider manager, and an empty collection log.
Directory creation is a filesystem side effect outside this model. -/
structure DataPipelineState where
  data_dir : String
  manager : List (String × ValidateResult)
  collection_log : List String

/-- `DataPipeline.__init__` (pipeline.py:18-28): it calls the
`setup_providers` imported from the `data_providers` package — which is the
shadowing definition of `__init__.py:21` — and propagates its exception. -/
def DataPipeline_init (data_dir : String) : Except PyErr DataPipelineState :=
  match setup_providers_shadowed with
  | .error e => .error e
  | .ok m => .ok { data_dir := data_dir, manager := m, collection_log := [] }

/-- The provider classes registerable in this repository. -/
inductive ProviderClass where
  | dune
  | hyperliquid
  | binance
deriving DecidableEq, Repr

/-- Attributes every provider inherits from `BaseDataProvider`
(base.py:17-100): instance fields set in `__init__` and the methods of the
class.  The health method the base class defines is `health_check`. -/
def base_provider_attrs : List String :=
  ["api_key", "rate_limit", "last_request_time", "session", "logger",
   "_get_auth_headers", "_get_base_url", "_rate_limit_wait", "_make_request",
   "get_market_data", "validate_connection", "get_supported_symbols",
   "health_check"]

/-- Attributes of `DuneProvider` (dune.py): base attributes plus its own
fields and methods. -/
def dune_attrs : List String :=
  base_provider_attrs ++
  ["client", "query_cache", "cache_duration", "query_mappings",
   "get_query_result", "get_bot_volume_data", "get_available_queries"]

/-- Attributes of `HyperliquidProvider` (hyperliquid.py): base attributes plus
its own fields and methods. -/
def hyperliquid_attrs : List String :=
  base_provider_attrs ++
  ["base_url", "_make_info_request", "get_all_mids", "collect_long_term_data",
   "collect_multiple_symbols", "collect_multi_timeframe_data",
   "get_funding_rates", "get_user_state", "get_recent_trades",
   "get_available_symbols", "get_market_overview", "calculate_volatility",
   "get_price_momentum", "get_volume_analysis", "get_support_resistance",
   "get_correlation_matrix", "get_risk_metrics",
   "get_comprehensive_market_data", "save_data_to_file", "load_saved_data"]

/-- Attributes of `BinanceProvider` (binance.py): base attributes plus its own
fields and methods. -/
def binance_attrs : List String :=
  base_provider_attrs ++
  ["spot_base_url", "futures_base_url", "_spot_symbols", "_futures_symbols",
   "get_available_symbols", "get_all_mids", "get_spot_symbols",
   "get_futures_symbols", "search_symbols", "get_historical_klines",
   "get_long_term_data", "_get_interval_minutes", "collect_multiple_symbols"]

/-- The attribute set of each provider class. -/
def provider_attrs : ProviderClass → List String
  | .dune => dune_attrs
  | .hyperliquid => hyperliquid_attrs
  | .binance => binance_attrs

/-- The class name of each provider class, used in the `AttributeError`
message Python raises. -/
def provider_class_name : ProviderClass → String
  | .dune => "DuneProvider"
  | .hyperliquid => "HyperliquidProvider"
  | .binance => "BinanceProvider"

/-- One value of the dict `MultiProviderManager.get_health_status` returns for
a provider: either the provider health report, or the `{'error': str(e)}`
dict built when the call raised (factory.py:85). -/
inductive HealthEntry where
  | report (status : String)
  | error_dict (msg : String)
deriving DecidableEq, Repr

/-- The `AttributeError` message for a missing `get_health_status` attribute. -/
def no_health_attr_msg (p : ProviderClass) : String :=
  provider_class_name p ++ " object has no attribute get_health_status"

/-- `MultiProviderManager.get_health_status` (factory.py:78-86): it calls
`provider.get_health_status()` on each provider; when the attribute does not
exist on the provider class, Python raises `AttributeError`, which the
`except` clause turns into `{'error': str(e)}`.  The `HealthEntry.report`
branch is unreachable because no provider class defines the attribute. -/
def manager_get_health_status (providers : List (String × ProviderClass)) :
    List (String × HealthEntry) :=
  providers.map fun p =>
    (p.1,
     if (provider_attrs p.2).contains "get_health_status" then
       HealthEntry.report "healthy"
     else HealthEntry.error_dict (no_health_attr_msg p.2))

/-- The summary dict built by `DataPipeline.run_full_collection`
(pipeline.py:138-144), minus the two wall-clock fields (`timestamp`,
`elapsed_seconds`), which are outside this model.  Note the dict has no
`failed_ranges` key. -/
structure CollectionSummary where
  datasets_collected : Nat
  total_rows : Nat
  datasets : List String
deriving DecidableEq, Repr

/-- `DataPipeline.run_full_collection` (pipeline.py:120-155), applied to the
collected datasets: it reports the number of datasets, the total row count,
and the dataset names. -/
def run_full_collection (all_datasets : List (String × List Candle)) :
    CollectionSummary :=
  { datasets_collected := all_datasets.length,
    total_rows := (all_datasets.map (fun d => d.2.length)).sum,
    datasets := all_datasets.map Prod.fst }

/-- The backfill loop body never runs when the range is empty, for any fuel. -/
theorem get_long_term_raw_of_le (market : List MarketRow) (fail : Nat → Nat → Bool)
    (symbol interval market_type : String) (maxDays endDay : Nat)
    (fuel current_start : Nat) (h : endDay ≤ current_start) :
    get_long_term_raw market fail symbol interval market_type maxDays endDay
      fuel current_start = [] := by
  cases fuel with
  | zero => rfl
  | succ n => simp [get_long_term_raw, Nat.not_lt.mpr h]

/-- Claim C5: for every start and end with start ≥ end (both start = end and
start > end), `get_long_term_data` returns an empty series and does not
raise an error. -/
theorem claim_C5_empty_range (market : List MarketRow) (fail : Nat → Nat → Bool)
    (symbol interval market_type : String) (startDay endDay : Nat)
    (h : endDay ≤ startDay) :
    get_long_term_data market fail symbol interval startDay endDay market_type = [] := by
  unfold get_long_term_data get_long_term_all_rows
  rw [get_long_term_raw_of_le _ _ _ _ _ _ _ _ _ h]
  rfl

/-- Witness for claim C5 at concrete inputs: start = end and start > end. -/
theorem claim_C5_empty_range_witness :
    get_long_term_data [] (fun _ _ => false) "BTC" "1d" 5 5 "spot" = [] ∧
    get_long_term_data [] (fun _ _ => false) "BTC" "1d" 7 5 "spot" = [] :=
  ⟨claim_C5_empty_range [] (fun _ _ => false) "BTC" "1d" "spot" 5 5 (by decide),
   claim_C5_empty_range [] (fun _ _ => false) "BTC" "1d" "spot" 7 5 (by decide)⟩

/-- Counterexample for claim C4: a provider configured with zero
requests-per-minute is accepted by `BaseDataProvider.__init__` as-is
(no `ConfigurationError` exists in the repository), and the very first
`_rate_limit_wait` evaluates `60 / 0`, i.e. raises `ZeroDivisionError`
(embedded as `none`). -/
theorem claim_C4_counterexample :
    (BaseDataProvider_init none 0).rate_limit = 0 ∧
    _rate_limit_wait (BaseDataProvider_init none 0) 100 = none :=
  ⟨rfl, rfl⟩

/-- Claim C4 (amended): construction accepts any requests-per-minute value
unvalidated, and the rate limiter wait step raises `ZeroDivisionError`
exactly when the configured rate limit is zero. -/
theorem claim_C4_amended (api_key : Option String) (rate_limit : Nat) (now : ℚ) :
    (BaseDataProvider_init api_key rate_limit).rate_limit = rate_limit ∧
    (_rate_limit_wait (BaseDataProvider_init api_key rate_limit) now = none ↔
      rate_limit = 0) := by
  refine ⟨rfl, ?_⟩
  unfold _rate_limit_wait BaseDataProvider_init
  by_cases h : rate_limit = 0 <;> simp [h]

/-- Claim C6: `test_all_connections` returns a mapping with an entry for
every registered provider; a provider whose `validate_connection` raises is
mapped to `false`, every other provider to its real result, and no exception
propagates (the function is total). -/
theorem claim_C6_test_all_connections (providers : List (String × ValidateResult)) :
    ((test_all_connections providers).map Prod.fst = providers.map Prod.fst) ∧
    (∀ n v, providers.lookup n = some v →
      (test_all_connections providers).lookup n =
        some (match v with | .ok b => b | .error _ => false)) := by
  constructor
  · simp [test_all_connections]
  · intro n v
    induction providers with
    | nil => intro h; simp at h
    | cons p ps ih =>
      obtain ⟨k, b⟩ := p
      intro h
      unfold test_all_connections at ih ⊢
      simp only [List.map_cons, List.lookup] at h ⊢
      rcases Bool.eq_false_or_eq_true (n == k) with hq | hq <;>
        simp only [hq] at h ⊢
      · simp only [Option.some.injEq] at h
        rw [h]
      · exact ih h

/-- Witness for claim C6: one provider whose `validate_connection` throws is
reported `false`; the other keeps its real result; both names appear. -/
theorem claim_C6_test_all_connections_witness :
    ((test_all_connections [("dune", Except.error "ConnectionError"),
        ("hyperliquid", Except.ok true)]).map Prod.fst = ["dune", "hyperliquid"]) ∧
    ((test_all_connections [("dune", Except.error "ConnectionError"),
        ("hyperliquid", Except.ok true)]).lookup "dune" = some false) ∧
    ((test_all_connections [("dune", Except.error "ConnectionError"),
        ("hyperliquid", Except.ok true)]).lookup "hyperliquid" = some true) :=
  ⟨(claim_C6_test_all_connections _).1,
   (claim_C6_test_all_connections _).2 "dune" (Except.error "ConnectionError") rfl,
   (claim_C6_test_all_connections _).2 "hyperliquid" (Except.ok true) rfl⟩

/-- Claim C8: for every symbol and every combination of keyword arguments,
`BinanceProvider.get_market_data` evaluates the unbound local name
`interval` and raises `NameError`; it never returns a DataFrame. -/
theorem claim_C8_get_market_data_nameerror (symbol : String) (kwargs : MarketDataKwargs) :
    get_market_data symbol kwargs = Except.error (PyErr.nameError "interval") := by
  have hres : binance_name_resolves
      ["self", "symbol", "kwargs", "start_date", "end_date", "market_type", "limit"]
      "interval" = false := by decide
  unfold get_market_data
  cases h : pyTruthyStr kwargs.start_date <;> simp [h, hres]

/-- Claim C9: the `setup_providers` defined at the bottom of
`data_providers/__init__.py` shadows the factory's `setup_providers` for
every importer of the package; the names `DataProviderManager` and `os` are
unbound in that module, so every call raises `NameError`, and
`DataPipeline.__init__`, which calls it, always fails. -/
theorem claim_C9_setup_providers_shadowed :
    (data_providers_init_namespace.lookup "setup_providers" =
      some PyAttr.init_setup_providers) ∧
    ((data_providers_init_module_names ++ python_builtins).contains
      "DataProviderManager" = false) ∧
    ((data_providers_init_module_names ++ python_builtins).contains "os" = false) ∧
    (setup_providers_shadowed = Except.error (PyErr.nameError "DataProviderManager")) ∧
    (∀ data_dir, DataPipeline_init data_dir =
      Except.error (PyErr.nameError "DataProviderManager")) := by
  refine ⟨by decide, by decide, by decide, rfl, ?_⟩
  intro d
  rfl

/-- Claim C7: with the 1-hour default TTL, a cached read within the TTL
returns the cached value with no upstream fetch; a read at or after the TTL
triggers a fresh fetch; and the cache entry is never mutated in place — the
whole cache is either unchanged or has the key replaced wholesale by a new
`(inserted_at, value)` pair. -/
theorem claim_C7_cache_ttl (fetch_latest_result : Nat → Df) (st : DuneCacheState)
    (now query_id : Nat) :
    (DuneProvider_init_cache.cache_duration = 3600) ∧
    (∀ t df, st.query_cache.lookup (cache_key_of query_id) = some (t, df) →
      now - t < st.cache_duration →
      get_query_result fetch_latest_result st now query_id true = (df, st, false)) ∧
    (∀ t df, st.query_cache.lookup (cache_key_of query_id) = some (t, df) →
      st.cache_duration ≤ now - t →
      get_query_result fetch_latest_result st now query_id true =
        (fetch_latest_result query_id,
         { st with query_cache := dictSet st.query_cache (cache_key_of query_id)
                     (now, fetch_latest_result query_id) },
         true)) ∧
    (∀ use_cache,
      (get_query_result fetch_latest_result st now query_id use_cache).2.1 = st ∨
      (get_query_result fetch_latest_result st now query_id use_cache).2.1 =
        { st with query_cache := dictSet st.query_cache (cache_key_of query_id)
                    (now, fetch_latest_result query_id) }) := by
  refine ⟨rfl, ?_, ?_, ?_⟩
  · intro t df hl hfresh
    unfold get_query_result
    simp [hl, hfresh]
  · intro t df hl hstale
    unfold get_query_result
    simp [hl, Nat.not_lt.mpr hstale]
  · intro use_cache
    unfold get_query_result
    cases use_cache
    · simp
    · cases hl : st.query_cache.lookup (cache_key_of query_id) with
      | none => simp [hl]
      | some p =>
        by_cases hfresh : now - p.1 < st.cache_duration <;> simp [hl, hfresh]

/-- Witness for claim C7: a concrete cache holding `("query_5", (10, [5]))`
with TTL 3600: at `now = 100` the read is served from cache with no fetch; at
`now = 5000` the entry is stale, a fresh fetch happens and the entry is
replaced wholesale by `(5000, fresh value)`. -/
theorem claim_C7_cache_ttl_witness :
    (get_query_result (fun q => [Int.ofNat q, 7]) ⟨[("query_5", (10, [5]))], 3600⟩ 100 5 true
      = ([5], ⟨[("query_5", (10, [5]))], 3600⟩, false)) ∧
    (get_query_result (fun q => [Int.ofNat q, 7]) ⟨[("query_5", (10, [5]))], 3600⟩ 5000 5 true
      = ([5, 7], ⟨[("query_5", (5000, [5, 7]))], 3600⟩, true)) :=
  ⟨(claim_C7_cache_ttl (fun q => [Int.ofNat q, 7]) ⟨[("query_5", (10, [5]))], 3600⟩
      100 5).2.1 10 [5] (by decide) (by decide),
   (claim_C7_cache_ttl (fun q => [Int.ofNat q, 7]) ⟨[("query_5", (10, [5]))], 3600⟩
      5000 5).2.2.1 10 [5] (by decide) (by decide)⟩

/-- No provider class has a `get_health_status` attribute, so the branch of
`manager_get_health_status` that would report health is dead: every provider
maps to the caught-error dict. -/
theorem manager_health_lookup (providers : List (String × ProviderClass))
    (n : String) (p : ProviderClass) (h : (n, p) ∈ providers) :
    ∃ msg, (manager_get_health_status providers).lookup n =
      some (HealthEntry.error_dict msg) := by
  induction providers with
  | nil => simp at h
  | cons q qs ih =>
    obtain ⟨k, c⟩ := q
    unfold manager_get_health_status at ih ⊢
    simp only [List.map_cons, List.lookup]
    rcases Bool.eq_false_or_eq_true (n == k) with hq | hq <;> simp only [hq]
    · refine ⟨no_health_attr_msg c, ?_⟩
      have hc : (provider_attrs c).contains "get_health_status" = false := by
        cases c <;> decide
      simp only [hc, Bool.false_eq_true, if_false]
    · rcases List.mem_cons.mp h with heq | hmem
      · exfalso
        have : n = k := congrArg Prod.fst heq
        rw [this] at hq
        simp at hq
      · exact ih hmem

/-- Claim C10: no provider class defines `get_health_status` (the base class
defines `health_check` instead), so `MultiProviderManager.get_health_status`
maps every registered provider name to an `{'error': ...}` dict, the
per-provider `AttributeError` being caught. -/
theorem claim_C10_get_health_status (providers : List (String × ProviderClass))
    (n : String) (p : ProviderClass) (h : (n, p) ∈ providers) :
    (∀ q : ProviderClass,
      (provider_attrs q).contains "get_health_status" = false ∧
      (provider_attrs q).contains "health_check" = true) ∧
    (∃ msg, (manager_get_health_status providers).lookup n =
      some (HealthEntry.error_dict msg)) :=
  ⟨fun q => by cases q <;> exact ⟨by decide, by decide⟩,
   manager_health_lookup providers n p h⟩

/-- Witness for claim C10: a manager holding the two providers the repository
registers reports an error dict for each of them. -/
theorem claim_C10_get_health_status_witness :
    (∃ msg, (manager_get_health_status
        [("dune", ProviderClass.dune), ("hyperliquid", ProviderClass.hyperliquid)]).lookup
        "dune" = some (HealthEntry.error_dict msg)) ∧
    (∃ msg, (manager_get_health_status
        [("dune", ProviderClass.dune), ("hyperliquid", ProviderClass.hyperliquid)]).lookup
        "hyperliquid" = some (HealthEntry.error_dict msg)) :=
  ⟨(claim_C10_get_health_status _ "dune" ProviderClass.dune (by decide)).2,
   (claim_C10_get_health_status _ "hyperliquid" ProviderClass.hyperliquid (by decide)).2⟩

/-- Membership after insertion: the inserted candle plus the old elements. -/
theorem mem_insertByTime (c x : Candle) (l : List Candle) :
    x ∈ insertByTime c l ↔ x = c ∨ x ∈ l := by
  induction l with
  | nil => simp [insertByTime]
  | cons d ds ih =>
    unfold insertByTime
    by_cases h : c.datetime ≤ d.datetime
    · rw [if_pos h]
      simp [List.mem_cons, or_comm, or_left_comm]
    · rw [if_neg h]
      simp [List.mem_cons, ih]
      tauto

/-- Inserting into a list sorted by open time keeps it sorted. -/
theorem sorted_insertByTime (c : Candle) (l : List Candle)
    (h : l.Pairwise (fun a b => a.datetime ≤ b.datetime)) :
    (insertByTime c l).Pairwise (fun a b => a.datetime ≤ b.datetime) := by
  induction l with
  | nil => simp [insertByTime]
  | cons d ds ih =>
    rw [List.pairwise_cons] at h
    unfold insertByTime
    by_cases hcd : c.datetime ≤ d.datetime
    · rw [if_pos hcd]
      refine List.pairwise_cons.mpr ⟨?_, List.pairwise_cons.mpr ⟨h.1, h.2⟩⟩
      intro b hb
      rcases List.mem_cons.mp hb with rfl | hm
      · exact hcd
      · exact Nat.le_trans hcd (h.1 b hm)
    · rw [if_neg hcd]
      refine List.pairwise_cons.mpr ⟨?_, ih h.2⟩
      intro b hb
      rcases (mem_insertByTime c b ds).mp hb with rfl | hm
      · omega
      · exact h.1 b hm

/-- Insertion sort output is sorted ascending by open time. -/
theorem sorted_sortByTime (l : List Candle) :
    (sortByTime l).Pairwise (fun a b => a.datetime ≤ b.datetime) := by
  induction l with
  | nil => exact List.Pairwise.nil
  | cons c cs ih => exact sorted_insertByTime c _ ih

/-- Sorting preserves membership. -/
theorem mem_sortByTime (x : Candle) (l : List Candle) :
    x ∈ sortByTime l ↔ x ∈ l := by
  induction l with
  | nil => simp [sortByTime]
  | cons c cs ih =>
    unfold sortByTime
    rw [mem_insertByTime]
    simp [ih]

/-- A single kline response is sorted ascending by open time. -/
theorem get_historical_klines_sorted (market : List MarketRow) (requestFails : Bool)
    (symbol interval : String) (startTime endTime limit : Nat) (market_type : String) :
    (get_historical_klines market requestFails symbol interval startTime endTime
      limit market_type).Pairwise (fun a b => a.datetime ≤ b.datetime) := by
  unfold get_historical_klines
  by_cases hf : requestFails
  · rw [if_pos hf]
    exact List.Pairwise.nil
  · rw [if_neg hf]
    exact sorted_sortByTime _

/-- Every row of one kline response lies in the requested window and carries
the requested symbol. -/
theorem mem_get_historical_klines (market : List MarketRow) (requestFails : Bool)
    (symbol interval : String) (startTime endTime limit : Nat) (market_type : String)
    (c : Candle)
    (h : c ∈ get_historical_klines market requestFails symbol interval startTime
      endTime limit market_type) :
    startTime ≤ c.datetime ∧ c.datetime ≤ endTime ∧ c.symbol = symbol := by
  unfold get_historical_klines at h
  by_cases hf : requestFails
  · rw [if_pos hf] at h
    simp at h
  · rw [if_neg hf] at h
    rw [mem_sortByTime] at h
    obtain ⟨r, hr, rfl⟩ := List.mem_map.mp h
    have hr' := List.take_subset _ _ hr
    have hmem := List.mem_filter.mp hr'
    have h12 := hmem.2
    simp only [Bool.and_eq_true, decide_eq_true_eq] at h12
    exact ⟨h12.1, h12.2, rfl⟩

/-- Loop invariant: every row the backfill loop accumulates from
`current_start` on opens no earlier than minute `current_start * 1440`. -/
theorem get_long_term_raw_lower (market : List MarketRow) (fail : Nat → Nat → Bool)
    (symbol interval market_type : String) (maxDays endDay : Nat) :
    ∀ fuel current_start c,
      c ∈ get_long_term_raw market fail symbol interval market_type maxDays endDay
        fuel current_start →
      current_start * 1440 ≤ c.datetime := by
  intro fuel
  induction fuel with
  | zero =>
    intro s c h
    simp [get_long_term_raw] at h
  | succ n ih =>
    intro s c h
    by_cases hs : s < endDay
    · simp only [get_long_term_raw, hs, if_true] at h
      rcases List.mem_append.mp h with hc | hc
      · exact (mem_get_historical_klines _ _ _ _ _ _ _ _ _ hc).1
      · have hrec := ih (min (s + maxDays) endDay + 1) c hc
        have hs' : s ≤ min (s + maxDays) endDay :=
          le_min (Nat.le_add_right s maxDays) (Nat.le_of_lt hs)
        omega
    · simp only [get_long_term_raw, hs, if_false] at h
      simp at h

/-- The concatenation of all chunk results is sorted ascending by open time:
each chunk is sorted, and every row of a later chunk opens strictly after the
current chunk window `[current_start * 1440, current_end * 1440]`. -/
theorem get_long_term_raw_sorted (market : List MarketRow) (fail : Nat → Nat → Bool)
    (symbol interval market_type : String) (maxDays endDay : Nat) :
    ∀ fuel current_start,
      (get_long_term_raw market fail symbol interval market_type maxDays endDay
        fuel current_start).Pairwise (fun a b => a.datetime ≤ b.datetime) := by
  intro fuel
  induction fuel with
  | zero =>
    intro s
    exact List.Pairwise.nil
  | succ n ih =>
    intro s
    by_cases hs : s < endDay
    · simp only [get_long_term_raw, hs, if_true]
      refine List.pairwise_append.mpr
        ⟨get_historical_klines_sorted _ _ _ _ _ _ _ _, ih _, ?_⟩
      intro a ha b hb
      have ha' := (mem_get_historical_klines _ _ _ _ _ _ _ _ _ ha).2.1
      have hb' := get_long_term_raw_lower market fail symbol interval market_type
        maxDays endDay n (min (s + maxDays) endDay + 1) b hb
      omega
    · simp only [get_long_term_raw, hs, if_false]
      exact List.Pairwise.nil

/-- Every row the backfill loop accumulates carries the requested symbol
(binance.py:302 sets the `symbol` column on every chunk). -/
theorem get_long_term_raw_symbol (market : List MarketRow) (fail : Nat → Nat → Bool)
    (symbol interval market_type : String) (maxDays endDay : Nat) :
    ∀ fuel current_start c,
      c ∈ get_long_term_raw market fail symbol interval market_type maxDays endDay
        fuel current_start →
      c.symbol = symbol := by
  intro fuel
  induction fuel with
  | zero =>
    intro s c h
    simp [get_long_term_raw] at h
  | succ n ih =>
    intro s c h
    by_cases hs : s < endDay
    · simp only [get_long_term_raw, hs, if_true] at h
      rcases List.mem_append.mp h with hc | hc
      · exact (mem_get_historical_klines _ _ _ _ _ _ _ _ _ hc).2.2
      · exact ih _ c hc
    · simp only [get_long_term_raw, hs, if_false] at h
      simp at h

/-- Dedup output is a sublist of its input (rows are only dropped). -/
theorem drop_duplicates_aux_sublist (l : List Candle) :
    ∀ seen, List.Sublist (drop_duplicates_aux seen l) l := by
  induction l with
  | nil =>
    intro seen
    exact List.Sublist.refl []
  | cons c cs ih =>
    intro seen
    unfold drop_duplicates_aux
    by_cases h : rowKey c ∈ seen
    · rw [if_pos h]
      exact (ih seen).cons c
    · rw [if_neg h]
      exact (ih (rowKey c :: seen)).cons₂ c

/-- No surviving row carries a key that was already in the seen set. -/
theorem drop_duplicates_aux_key_notin (l : List Candle) :
    ∀ seen c, c ∈ drop_duplicates_aux seen l → rowKey c ∉ seen := by
  induction l with
  | nil =>
    intro seen c h
    simp [drop_duplicates_aux] at h
  | cons d ds ih =>
    intro seen c h
    unfold drop_duplicates_aux at h
    by_cases hd : rowKey d ∈ seen
    · rw [if_pos hd] at h
      exact ih seen c h
    · rw [if_neg hd] at h
      rcases List.mem_cons.mp h with rfl | hm
      · exact hd
      · have hrec := ih _ c hm
        exact fun hs => hrec (List.mem_cons_of_mem _ hs)

/-- Surviving rows have pairwise distinct (symbol, open_time) keys. -/
theorem drop_duplicates_aux_pairwise_ne (l : List Candle) :
    ∀ seen, (drop_duplicates_aux seen l).Pairwise (fun a b => rowKey a ≠ rowKey b) := by
  induction l with
  | nil =>
    intro seen
    exact List.Pairwise.nil
  | cons d ds ih =>
    intro seen
    unfold drop_duplicates_aux
    by_cases hd : rowKey d ∈ seen
    · rw [if_pos hd]
      exact ih seen
    · rw [if_neg hd]
      refine List.pairwise_cons.mpr ⟨?_, ih _⟩
      intro b hb heq
      exact (drop_duplicates_aux_key_notin ds _ b hb) (heq ▸ List.mem_cons_self _ _)

/-- Membership characterization of first-wins dedup: a row survives exactly
when its key is fresh relative to `seen` and it is the first row of the input
carrying its key. -/
theorem mem_drop_duplicates_aux (l : List Candle) :
    ∀ seen c, c ∈ drop_duplicates_aux seen l ↔
      (rowKey c ∉ seen ∧ firstWithKey (rowKey c) l = some c) := by
  induction l with
  | nil =>
    intro seen c
    simp [drop_duplicates_aux, firstWithKey]
  | cons d ds ih =>
    intro seen c
    unfold drop_duplicates_aux firstWithKey
    by_cases hseen : rowKey d ∈ seen
    · rw [if_pos hseen]
      by_cases hk : rowKey d = rowKey c
      · rw [if_pos hk]
        constructor
        · intro hc
          exact absurd (hk ▸ hseen) ((ih seen c).mp hc).1
        · rintro ⟨hns, heq⟩
          have : d = c := Option.some.inj heq
          exact absurd (hk ▸ hseen) (this ▸ hns)
      · rw [if_neg hk]
        exact ih seen c
    · rw [if_neg hseen]
      by_cases hk : rowKey d = rowKey c
      · rw [if_pos hk]
        simp only [List.mem_cons]
        constructor
        · rintro (rfl | hc)
          · exact ⟨hk ▸ hseen, rfl⟩
          · have := ((ih (rowKey d :: seen) c).mp hc).1
            exact absurd (hk ▸ List.mem_cons_self (rowKey d) seen) this
        · rintro ⟨hns, heq⟩
          exact Or.inl (Option.some.inj heq).symm
      · rw [if_neg hk]
        simp only [List.mem_cons]
        constructor
        · rintro (rfl | hc)
          · exact absurd rfl hk
          · have := (ih (rowKey d :: seen) c).mp hc
            exact ⟨fun hs => this.1 (List.mem_cons_of_mem _ hs), this.2⟩
        · rintro ⟨hns, hfw⟩
          refine Or.inr ((ih (rowKey d :: seen) c).mpr ⟨?_, hfw⟩)
          intro hmem
          rcases List.mem_cons.mp hmem with heq | hs
          · exact hk heq.symm
          · exact hns hs

/-- Membership in `drop_duplicates`: exactly the first row of the input for
each key. -/
theorem mem_drop_duplicates (l : List Candle) (c : Candle) :
    c ∈ drop_duplicates l ↔ firstWithKey (rowKey c) l = some c := by
  unfold drop_duplicates
  rw [mem_drop_duplicates_aux]
  simp

/-- Claim C1: for every backfill, the merged output of
`BinanceProvider.get_long_term_data` is sorted strictly ascending by open
time, contains no duplicate (symbol, open_time) pair, and a row is in the
output exactly when it is the first-seen row with its (symbol, open_time)
pair in the concatenated chunk results. -/
theorem claim_C1_backfill_sorted_nodup (market : List MarketRow)
    (fail : Nat → Nat → Bool) (symbol interval : String) (startDay endDay : Nat)
    (market_type : String) :
    (get_long_term_data market fail symbol interval startDay endDay
      market_type).Pairwise (fun a b => a.datetime < b.datetime) ∧
    (get_long_term_data market fail symbol interval startDay endDay
      market_type).Pairwise (fun a b => rowKey a ≠ rowKey b) ∧
    (∀ c, c ∈ get_long_term_data market fail symbol interval startDay endDay
        market_type ↔
      firstWithKey (rowKey c) (get_long_term_all_rows market fail symbol interval
        startDay endDay market_type) = some c) := by
  have hsub : List.Sublist
      (get_long_term_data market fail symbol interval startDay endDay market_type)
      (get_long_term_all_rows market fail symbol interval startDay endDay market_type) :=
    drop_duplicates_aux_sublist _ []
  have hle : (get_long_term_data market fail symbol interval startDay endDay
      market_type).Pairwise (fun a b => a.datetime ≤ b.datetime) :=
    (get_long_term_raw_sorted market fail symbol interval market_type _ _ _ _).sublist hsub
  have hne : (get_long_term_data market fail symbol interval startDay endDay
      market_type).Pairwise (fun a b => rowKey a ≠ rowKey b) :=
    drop_duplicates_aux_pairwise_ne _ []
  refine ⟨?_, hne, fun c => mem_drop_duplicates _ c⟩
  refine (hle.and hne).imp_of_mem ?_
  intro a b ha hb hab
  have hsa : a.symbol = symbol :=
    get_long_term_raw_symbol market fail symbol interval market_type _ _ _ _ a
      (hsub.subset ha)
  have hsb : b.symbol = symbol :=
    get_long_term_raw_symbol market fail symbol interval market_type _ _ _ _ b
      (hsub.subset hb)
  have hdt : a.datetime ≠ b.datetime := by
    intro hdt
    exact hab.2 (by unfold rowKey; rw [hsa, hsb, hdt])
  exact Nat.lt_of_le_of_ne hab.1 hdt

/-- A raw market row holding only an open time (price fields zero). -/
def mkRow (t : Nat) : MarketRow :=
  ⟨t, 0, 0, 0, 0, 0, 0⟩

/-- A run in which no network request fails. -/
def noFail : Nat → Nat → Bool :=
  fun _ _ => false

/-- The exchange holding one 1h candle at every full hour of
[2024-01-01T00:00, 2024-01-03T00:00], as minutes from day 0: 0, 60, …, 2880. -/
def marketHourlyTwoDays : List MarketRow :=
  (List.range 49).map (fun i => mkRow (i * 60))

/-- An exchange holding 1m candles at minutes 0, 1 and 1440. -/
def marketMinuteSample : List MarketRow :=
  [mkRow 0, mkRow 1, mkRow 1440]

/-- Claim C2, evaluated on the code: backfilling 1h data over
[day 0, day 2) — the claim's [2024-01-01, 2024-01-03) — issues exactly ONE
chunk request, for the closed day range [0, 2] (the chunk span is the
hard-coded `(1000 * 60) // 1440 = 41` days, `maxRowsPerCall` is not
configurable), and returns 49 candles (the end-boundary candle included),
not the claimed 2 requests and 48 candles.  Moreover, because the loop
advances `current_start` by one DAY instead of one interval, a 1m backfill
over [day 0, day 2) issues requests only for the single minutes 0 and 1440
and silently drops the in-range candle at minute 1. -/
theorem claim_C2_chunking_diverges :
    (get_long_term_requests "1h" 0 2 = [(0, 2)]) ∧
    ((get_long_term_data marketHourlyTwoDays noFail "ETH" "1h" 0 2 "spot").length = 49) ∧
    (get_long_term_requests "1m" 0 2 = [(0, 0), (1, 1)]) ∧
    (mkRow 1 ∈ marketMinuteSample ∧ 1 < 2 * 1440) ∧
    (∀ c ∈ get_long_term_data marketMinuteSample noFail "ETH" "1m" 0 2 "spot",
      c.datetime ≠ 1) := by
  refine ⟨by decide, by decide, by decide, ⟨by decide, by decide⟩, by decide⟩

/-- The exchange holding one 1m candle at the start of each of days 0, 1, 2. -/
def marketThreeDays : List MarketRow :=
  [mkRow 0, mkRow 1440, mkRow 2880]

/-- A transport error on the chunk whose request starts at day 1. -/
def failDay1 : Nat → Nat → Bool :=
  fun s _ => s == 1

/-- The same exchange as `marketThreeDays` but with no data at day 1. -/
def marketThreeDaysGap : List MarketRow :=
  [mkRow 0, mkRow 2880]

/-- Counterexample to claim C3: a chunk fetch that fails with a transport
error leaves NO manifest entry — the backfill result and the collection
summary are bit-for-bit identical to a run in which that chunk's data simply
never existed, so the failure is silently indistinguishable from absent data
and nothing records the failed sub-range. -/
theorem claim_C3_counterexample :
    (get_long_term_data marketThreeDays failDay1 "ETH" "1m" 0 3 "spot"
      = get_long_term_data marketThreeDaysGap noFail "ETH" "1m" 0 3 "spot") ∧
    (run_full_collection
        [("ETH_ohlcv", get_long_term_data marketThreeDays failDay1 "ETH" "1m" 0 3 "spot")]
      = run_full_collection
        [("ETH_ohlcv", get_long_term_data marketThreeDaysGap noFail "ETH" "1m" 0 3 "spot")]) := by
  refine ⟨by decide, by decide⟩

/-- The first row carrying the key of a member always exists and carries that
key. -/
theorem firstWithKey_of_mem (c : Candle) (l : List Candle) (h : c ∈ l) :
    ∃ d, firstWithKey (rowKey c) l = some d ∧ rowKey d = rowKey c := by
  induction l with
  | nil => simp at h
  | cons e es ih =>
    unfold firstWithKey
    by_cases hk : rowKey e = rowKey c
    · exact ⟨e, if_pos hk, hk⟩
    · rw [if_neg hk]
      rcases List.mem_cons.mp h with rfl | hm
      · exact absurd rfl hk
      · exact ih hm

/-- Every row of the input survives dedup up to key: some output row carries
its key. -/
theorem drop_duplicates_covers (l : List Candle) (c : Candle) (h : c ∈ l) :
    ∃ d, d ∈ drop_duplicates l ∧ rowKey d = rowKey c := by
  obtain ⟨d, hfw, hk⟩ := firstWithKey_of_mem c l h
  refine ⟨d, ?_, hk⟩
  rw [mem_drop_duplicates, hk]
  exact hfw

/-- Claim C3 (amended): a failed chunk is caught inside
`get_historical_klines` and contributes an empty result with no manifest
entry anywhere; the backfill still returns (a representative of) every row
of every successfully fetched chunk, and `run_full_collection` reports
only `datasets_collected`, `total_rows` and the dataset names — there is no
`failed_ranges` field. -/
theorem claim_C3_amended (market : List MarketRow) (fail : Nat → Nat → Bool)
    (symbol interval : String) (startDay endDay : Nat) (market_type : String) :
    (∀ c, c ∈ get_long_term_all_rows market fail symbol interval startDay endDay
        market_type →
      ∃ d, d ∈ get_long_term_data market fail symbol interval startDay endDay
          market_type ∧ rowKey d = rowKey c) ∧
    (∀ ds : List (String × List Candle),
      (run_full_collection ds).datasets_collected = ds.length ∧
      (run_full_collection ds).total_rows = (ds.map (fun d => d.2.length)).sum ∧
      (run_full_collection ds).datasets = ds.map Prod.fst) :=
  ⟨fun c hc => drop_duplicates_covers _ c hc,
   fun ds => ⟨rfl, rfl, rfl⟩⟩

/-- Witness for the amended claim C3: in the failing-chunk run over
`marketThreeDays`, the successfully fetched candle of day 0 is present in the
merged output. -/
theorem claim_C3_amended_witness :
    ∃ d, d ∈ get_long_term_data marketThreeDays failDay1 "ETH" "1m" 0 3 "spot" ∧
      rowKey d = ("ETH", 0) :=
  (claim_C3_amended marketThreeDays failDay1 "ETH" "1m" 0 3 "spot").1
    (toCandle "ETH" "1m" "spot" (mkRow 0)) (by decide)
